import Mathlib

set_option linter.unusedVariables false

/-!
Verification of the task/thread lifecycle engine of the `wasmt` crate.

The embedding models the crate's join-handle state machine over the
single-producer single-consumer one-shot result channel
(`futures::channel::oneshot`) and the cooperative abort wrapper
(`futures::future::Abortable`), exactly as the crate uses them in
`src/task.rs`, `src/thread.rs` and `src/lib.rs`.  Machine concurrency is
reduced to interleavings at event granularity: the only shared-state
mutators appearing in the crate are the handle's `abort()` and one
run-to-completion of the wrapped work, so a behaviour of the system is a
list of such events applied to the freshly spawned handle state.
-/

namespace Wasmt

/-- Shared inner state of a `futures::channel::oneshot` channel as used by
this crate: the monotone `complete` flag (set by the sender's drop and by
`Receiver::close`, never cleared) and the single write-once data slot.
`Sender::send` in the crate is always immediately followed by the sender's
drop (`tx.send(..).ok()` consumes `tx`), so the two are merged here. -/
structure Oneshot (T : Type) where
  complete : Bool
  data : Option T
  deriving DecidableEq

namespace Oneshot

/-- `futures::channel::oneshot::channel()`: fresh channel, nothing sent. -/
def init {T : Type} : Oneshot T := ⟨false, none⟩

/-- `Sender::send(v)` followed by the sender's drop.  If the receiver already
closed (or the channel is otherwise complete) the value is rejected and the
send reports failure (which the crate discards with `.ok()`); otherwise the
value is stored.  Either way the sender is gone afterwards, so `complete`
ends up `true`.  The `Bool` component is the success of the send. -/
def send {T : Type} (ch : Oneshot T) (v : T) : Oneshot T × Bool :=
  if ch.complete then (⟨true, ch.data⟩, false)
  else (⟨true, some v⟩, true)

/-- Dropping the producer without sending (panicking work, or an aborted
`Abortable` future discarded unsent): sets `complete`, keeps the slot. -/
def dropSender {T : Type} (ch : Oneshot T) : Oneshot T := ⟨true, ch.data⟩

/-- `Receiver::close`: flags the channel complete; a value already sitting in
the slot is retained and still receivable. -/
def close {T : Type} (ch : Oneshot T) : Oneshot T := ⟨true, ch.data⟩

/-- `FusedFuture::is_terminated` on the receiver: reads the `complete` flag. -/
def isTerminated {T : Type} (ch : Oneshot T) : Bool := ch.complete

/-- Result of awaiting the receiver once the channel is complete: the value if
one was delivered, otherwise the `Canceled` condition (here `none`). -/
def recv {T : Type} (ch : Oneshot T) : Option T := ch.data

end Oneshot

/-- `JoinError` from `src/lib.rs` / `src/task.rs`. -/
inductive JoinError where
  | Aborted
  | Panic
  deriving DecidableEq

/-- How a caller-supplied unit of work terminates when it is actually run to
its own end: normal completion with a value, or abnormal termination. -/
inductive WorkOutcome (T : Type) where
  | completes (v : T)
  | panics
  deriving DecidableEq

/-- State owned by a cancellable join handle together with the shared state it
references: the shared `AbortHandle`/`AbortRegistration` flag of the
`Abortable` wrapper, the handle-local `aborted` field, and the one-shot
channel whose receiving half (`rx`) the handle owns. -/
structure JoinHandleState (T : Type) where
  abortFlag : Bool
  aborted : Bool
  rx : Oneshot T
  deriving DecidableEq

namespace task

/-- Handle state constructed by `task::spawn` (src/task.rs lines 19-37):
fresh channel, fresh abort pair, `aborted: false`. -/
def spawnInit {T : Type} : JoinHandleState T := ⟨false, false, Oneshot.init⟩

/-- Handle state constructed by `task::spawn_local` (src/task.rs lines 57-75):
textually the same wiring as `task::spawn`. -/
def spawnLocalInit {T : Type} : JoinHandleState T := ⟨false, false, Oneshot.init⟩

/-- `task::r#async::JoinHandle::join` (src/task.rs lines 89-97): awaits the
receiver; on a delivered value returns it, on the channel's cancel condition
classifies by the local `aborted` flag.  Faithful for states whose channel is
complete (before that the `await` would suspend, not error). -/
def join {T : Type} (s : JoinHandleState T) : Except JoinError T :=
  match s.rx.recv with
  | some v => Except.ok v
  | none => Except.error (if s.aborted then JoinError.Aborted else JoinError.Panic)

/-- `task::r#async::JoinHandle::abort` (src/task.rs lines 99-103):
`abort_handle.abort()`, `aborted = true`, `rx.close()`. -/
def abort {T : Type} (s : JoinHandleState T) : JoinHandleState T :=
  ⟨true, true, s.rx.close⟩

/-- `task::r#async::JoinHandle::is_finished` (src/task.rs lines 105-107):
`rx.is_terminated()`. -/
def is_finished {T : Type} (s : JoinHandleState T) : Bool := s.rx.isTerminated

/-- One run-to-completion of the wrapped future spawned at src/task.rs lines
27-31 (and identically at lines 65-69):
`if let Ok(result) = abortable_future.await { tx.send(result).ok(); }`.
`Abortable` yields `Err(Aborted)` without polling the inner work when the
abort flag is already set, in which case the sender is dropped unsent; a
panicking inner work also drops the sender unsent; a normal completion sends
the value (success or not, the error is discarded by `.ok()`). -/
def runWrapped {T : Type} (s : JoinHandleState T) (o : WorkOutcome T) : JoinHandleState T :=
  if s.abortFlag then { s with rx := s.rx.dropSender }
  else
    match o with
    | WorkOutcome.completes v => { s with rx := (s.rx.send v).1 }
    | WorkOutcome.panics => { s with rx := s.rx.dropSender }

/-- The state-mutating events observable on one spawned task: a call to
`abort()` on the handle, or the wrapped work running to its completion. -/
inductive Ev (T : Type) where
  | abortCall
  | workRun (o : WorkOutcome T)
  deriving DecidableEq

/-- Effect of one event on the system state. -/
def step {T : Type} (s : JoinHandleState T) : Ev T → JoinHandleState T
  | Ev.abortCall => abort s
  | Ev.workRun o => runWrapped s o

/-- Apply a sequence of events from a given state. -/
def runFrom {T : Type} (s : JoinHandleState T) (evs : List (Ev T)) : JoinHandleState T :=
  evs.foldl step s

/-- A behaviour of one spawned task: the events applied to the fresh handle. -/
def run {T : Type} (evs : List (Ev T)) : JoinHandleState T :=
  runFrom spawnInit evs

end task

namespace blocking

/-- `task::blocking::JoinHandle` (src/task.rs lines 140-142): only the
receiving half of the channel, no abort control and no `aborted` flag. -/
structure JoinHandleState (T : Type) where
  rx : Oneshot T
  deriving DecidableEq

/-- Handle state constructed by `task::spawn_blocking` (src/task.rs 8-17). -/
def spawnInit {T : Type} : JoinHandleState T := ⟨Oneshot.init⟩

/-- `task::blocking::JoinHandle::join` (src/task.rs lines 145-147): every
undelivered result is classified `Panic`. -/
def join {T : Type} (s : JoinHandleState T) : Except JoinError T :=
  match s.rx.recv with
  | some v => Except.ok v
  | none => Except.error JoinError.Panic

/-- `task::blocking::JoinHandle::is_finished` (src/task.rs lines 149-151). -/
def is_finished {T : Type} (s : JoinHandleState T) : Bool := s.rx.isTerminated

/-- One run of the closure spawned at src/task.rs lines 13-15:
`tx.send(f()).ok()` when `f` returns, dropping the sender unsent when `f`
terminates abnormally. -/
def runWork {T : Type} (s : JoinHandleState T) : WorkOutcome T → JoinHandleState T
  | WorkOutcome.completes v => ⟨(s.rx.send v).1⟩
  | WorkOutcome.panics => ⟨s.rx.dropSender⟩

/-- Apply a sequence of producer-side events to a blocking handle. -/
def runFrom {T : Type} (s : JoinHandleState T) (os : List (WorkOutcome T)) : JoinHandleState T :=
  os.foldl runWork s

end blocking

namespace thread

/-- Handle state constructed by `thread::spawn` (src/thread.rs lines 6-24). -/
def spawnInit {T : Type} : JoinHandleState T := ⟨false, false, Oneshot.init⟩

/-- Handle state constructed by `thread::spawn_local` (src/thread.rs 26-44). -/
def spawnLocalInit {T : Type} : JoinHandleState T := ⟨false, false, Oneshot.init⟩

/-- `JoinHandle::join` of the thread-flavoured handle (src/lib.rs 77-85). -/
def join {T : Type} (s : JoinHandleState T) : Except JoinError T :=
  match s.rx.recv with
  | some v => Except.ok v
  | none => Except.error (if s.aborted then JoinError.Aborted else JoinError.Panic)

/-- `JoinHandle::abort` of the thread-flavoured handle (src/lib.rs 87-91). -/
def abort {T : Type} (s : JoinHandleState T) : JoinHandleState T :=
  ⟨true, true, s.rx.close⟩

/-- `JoinHandle::is_finished` of the thread-flavoured handle (src/lib.rs
93-95). -/
def is_finished {T : Type} (s : JoinHandleState T) : Bool := s.rx.isTerminated

/-- One run of the wrapped future spawned at src/thread.rs lines 14-18 (and
identically at lines 34-38). -/
def runWrapped {T : Type} (s : JoinHandleState T) (o : WorkOutcome T) : JoinHandleState T :=
  if s.abortFlag then { s with rx := s.rx.dropSender }
  else
    match o with
    | WorkOutcome.completes v => { s with rx := (s.rx.send v).1 }
    | WorkOutcome.panics => { s with rx := s.rx.dropSender }

end thread

/-- `std::time::Duration` as used by `src/time.rs`: seconds plus the
sub-second nanoseconds (the latter below 10^9 in any value Rust constructs). -/
structure Duration where
  secs : Nat
  nanos : Nat
  deriving DecidableEq

/-- `Duration::as_millis`: whole milliseconds, sub-millisecond part
truncated. -/
def Duration.as_millis (d : Duration) : Nat :=
  d.secs * 1000 + d.nanos / 1000000

/-- Total length of the duration in nanoseconds. -/
def Duration.toNanos (d : Duration) : Nat :=
  d.secs * 1000000000 + d.nanos

/-- The `as i32` wrapping cast applied to `dur.as_millis()` (a `u128`) in
`sleep` (src/time.rs lines 13 and 21): keep the low 32 bits, reinterpret as
two's complement. -/
def castU128ToI32 (n : Nat) : Int :=
  let r : Nat := n % 2 ^ 32
  if r < 2 ^ 31 then (r : Int) else (r : Int) - 2 ^ 32

/-- Modelled from the spec: the Delay Service boundary (the JS `setTimeout`
glue that `sleep` in src/time.rs hands its timeout to) is external to the
repository; per the spec it resolves after at least the requested timeout,
with a negative timeout clamped to zero.  `sleep(dur)` requests
`dur.as_millis() as i32` milliseconds, so this is the guaranteed lower bound,
in nanoseconds, on the time elapsed before `sleep(dur)` resolves. -/
def sleepGuaranteedNanos (d : Duration) : Nat :=
  (max (castU128ToI32 d.as_millis) 0).toNat * 1000000

/-! Helper lemmas about single steps and traces. -/

/-- A send always leaves the channel complete. -/
theorem Oneshot.send_complete {T : Type} (ch : Oneshot T) (v : T) :
    ((ch.send v).1).complete = true := by
  unfold Oneshot.send
  split <;> rfl

/-- A step never clears the channel's `complete` flag. -/
theorem task.step_complete {T : Type} (s : JoinHandleState T) (e : task.Ev T)
    (h : s.rx.complete = true) : (task.step s e).rx.complete = true := by
  cases e with
  | abortCall => rfl
  | workRun o =>
    simp only [task.step, task.runWrapped]
    split
    · rfl
    · cases o with
      | completes v => exact Oneshot.send_complete s.rx v
      | panics => rfl

/-- `complete` is monotone along any trace. -/
theorem task.runFrom_complete {T : Type} (evs : List (task.Ev T)) :
    ∀ s : JoinHandleState T, s.rx.complete = true →
      (task.runFrom s evs).rx.complete = true := by
  induction evs with
  | nil => intro s h; exact h
  | cons e evs ih =>
    intro s h
    have hstep : task.runFrom s (e :: evs) = task.runFrom (task.step s e) evs := rfl
    rw [hstep]
    exact ih (task.step s e) (task.step_complete s e h)

/-- A `workRun` event never changes the handle-local `aborted` flag. -/
theorem task.step_workRun_aborted {T : Type} (s : JoinHandleState T) (o : WorkOutcome T) :
    (task.step s (task.Ev.workRun o)).aborted = s.aborted := by
  simp only [task.step, task.runWrapped]
  split
  · rfl
  · cases o <;> rfl

/-- Along a trace, the `aborted` flag is set exactly when `abort()` appears in
the trace (or was already set). -/
theorem task.runFrom_aborted {T : Type} (evs : List (task.Ev T)) :
    ∀ s : JoinHandleState T,
      ((task.runFrom s evs).aborted = true ↔
        (s.aborted = true ∨ task.Ev.abortCall ∈ evs)) := by
  induction evs with
  | nil =>
    intro s
    simp [task.runFrom]
  | cons e evs ih =>
    intro s
    have hstep : task.runFrom s (e :: evs) = task.runFrom (task.step s e) evs := rfl
    rw [hstep, ih (task.step s e)]
    cases e with
    | abortCall =>
      simp [task.step, task.abort]
    | workRun o =>
      rw [task.step_workRun_aborted s o]
      constructor
      · rintro (h | h)
        · exact Or.inl h
        · exact Or.inr (List.mem_cons_of_mem _ h)
      · rintro (h | h)
        · exact Or.inl h
        · rcases List.mem_cons.mp h with h₁ | h₁
          · exact task.Ev.noConfusion h₁
          · exact Or.inr h₁

/-- Once the handle is in the post-abort shape (signal set, local flag set,
channel closed, nothing delivered), every further event keeps it there: the
abort signal makes the wrapped work drop its sender unsent, and closing is
idempotent. -/
theorem task.step_absorbing {T : Type} (s : JoinHandleState T) (e : task.Ev T)
    (h1 : s.abortFlag = true) (h2 : s.aborted = true)
    (h3 : s.rx.complete = true) (h4 : s.rx.data = none) :
    (task.step s e).abortFlag = true ∧ (task.step s e).aborted = true ∧
      (task.step s e).rx.complete = true ∧ (task.step s e).rx.data = none := by
  cases e with
  | abortCall =>
    exact ⟨rfl, rfl, rfl, by simp [task.step, task.abort, Oneshot.close, h4]⟩
  | workRun o =>
    simp only [task.step, task.runWrapped, h1]
    simp [Oneshot.dropSender, h1, h2, h4]

/-- The post-abort shape is invariant along any trace suffix. -/
theorem task.runFrom_absorbing {T : Type} (evs : List (task.Ev T)) :
    ∀ s : JoinHandleState T,
      s.abortFlag = true → s.aborted = true →
      s.rx.complete = true → s.rx.data = none →
      (task.runFrom s evs).abortFlag = true ∧ (task.runFrom s evs).aborted = true ∧
        (task.runFrom s evs).rx.complete = true ∧ (task.runFrom s evs).rx.data = none := by
  induction evs with
  | nil => intro s h1 h2 h3 h4; exact ⟨h1, h2, h3, h4⟩
  | cons e evs ih =>
    intro s h1 h2 h3 h4
    have hs := task.step_absorbing s e h1 h2 h3 h4
    have hstep : task.runFrom s (e :: evs) = task.runFrom (task.step s e) evs := rfl
    rw [hstep]
    exact ih (task.step s e) hs.1 hs.2.1 hs.2.2.1 hs.2.2.2

/-- Once a value sits in a complete channel, no further event can displace it:
a late send is rejected, dropping the sender and closing keep the slot. -/
theorem task.step_delivered {T : Type} (s : JoinHandleState T) (e : task.Ev T) (v : T)
    (hc : s.rx.complete = true) (hd : s.rx.data = some v) :
    (task.step s e).rx.complete = true ∧ (task.step s e).rx.data = some v := by
  cases e with
  | abortCall => exact ⟨rfl, by simp [task.step, task.abort, Oneshot.close, hd]⟩
  | workRun o =>
    simp only [task.step, task.runWrapped]
    split
    · exact ⟨rfl, by simp [Oneshot.dropSender, hd]⟩
    · cases o with
      | completes w => simp [Oneshot.send, hc, hd]
      | panics => exact ⟨rfl, by simp [Oneshot.dropSender, hd]⟩

/-- A delivered value stays delivered along any trace suffix. -/
theorem task.runFrom_delivered {T : Type} (evs : List (task.Ev T)) :
    ∀ (s : JoinHandleState T) (v : T),
      s.rx.complete = true → s.rx.data = some v →
      (task.runFrom s evs).rx.complete = true ∧
        (task.runFrom s evs).rx.data = some v := by
  induction evs with
  | nil => intro s v hc hd; exact ⟨hc, hd⟩
  | cons e evs ih =>
    intro s v hc hd
    have hs := task.step_delivered s e v hc hd
    have hstep : task.runFrom s (e :: evs) = task.runFrom (task.step s e) evs := rfl
    rw [hstep]
    exact ih (task.step s e) v hs.1 hs.2

/-- The blocking producer events never clear the `complete` flag. -/
theorem blocking.runWork_complete {T : Type} (s : blocking.JoinHandleState T)
    (o : WorkOutcome T) (h : s.rx.complete = true) :
    (blocking.runWork s o).rx.complete = true := by
  cases o with
  | completes v => exact Oneshot.send_complete s.rx v
  | panics => rfl

/-- `complete` is monotone along any blocking-handle trace. -/
theorem blocking.runFrom_complete_mono {T : Type} (os : List (WorkOutcome T)) :
    ∀ s : blocking.JoinHandleState T, s.rx.complete = true →
      (blocking.runFrom s os).rx.complete = true := by
  induction os with
  | nil => intro s h; exact h
  | cons o os ih =>
    intro s h
    have hstep : blocking.runFrom s (o :: os) = blocking.runFrom (blocking.runWork s o) os := rfl
    rw [hstep]
    exact ih (blocking.runWork s o) (blocking.runWork_complete s o h)

/-! The claims. -/

/-- C1: for every cancellable join handle whose result channel has reached a
terminal state, `join()` returns the delivered value when the channel
delivered one; when no value was delivered it returns `Err(Aborted)` when
`abort()` was invoked on this handle during its history, and `Err(Panic)`
when `abort()` was never invoked.  (`join` consumes the handle by Rust move
semantics; here it is the terminal observation of the state.) -/
theorem claim_c1 {T : Type} (evs : List (task.Ev T))
    (hterm : (task.run evs).rx.complete = true) :
    (∀ v : T, (task.run evs).rx.data = some v →
      task.join (task.run evs) = Except.ok v) ∧
    ((task.run evs).rx.data = none → task.Ev.abortCall ∈ evs →
      task.join (task.run evs) = Except.error JoinError.Aborted) ∧
    ((task.run evs).rx.data = none → task.Ev.abortCall ∉ evs →
      task.join (task.run evs) = Except.error JoinError.Panic) := by
  refine ⟨?_, ?_, ?_⟩
  · intro v hv
    simp [task.join, Oneshot.recv, hv]
  · intro hnone hmem
    have hab : (task.run evs).aborted = true :=
      (task.runFrom_aborted evs task.spawnInit).mpr (Or.inr hmem)
    simp [task.join, Oneshot.recv, hnone, hab]
  · intro hnone hmem
    have hab : (task.run evs).aborted = false := by
      rcases Bool.eq_false_or_eq_true (task.run evs).aborted with h | h
      · rcases (task.runFrom_aborted evs task.spawnInit).mp h with h₁ | h₁
        · exact absurd h₁ (by simp [task.spawnInit])
        · exact absurd h₁ hmem
      · exact h
    simp [task.join, Oneshot.recv, hnone, hab]

/-- C1 witness: on the concrete trace consisting of one `abort()` call the
channel is terminal, nothing was delivered, and `join()` reports `Aborted`. -/
theorem claim_c1_witness :
    task.join (task.run ([task.Ev.abortCall] : List (task.Ev Nat))) =
      Except.error JoinError.Aborted :=
  (claim_c1 ([task.Ev.abortCall] : List (task.Ev Nat)) rfl).2.1 rfl (by simp)

/-- C2: work that completes normally with value `v` makes `join()` on the
handle of each of the three spawn variants return `Ok(v)` (the "exactly
once" part is Rust ownership: `join(self)` consumes the handle, so no second
`join` can be expressed). -/
theorem claim_c2 {T : Type} (v : T) :
    task.join (task.step task.spawnInit (task.Ev.workRun (WorkOutcome.completes v))) =
      Except.ok v ∧
    task.join (task.step task.spawnLocalInit (task.Ev.workRun (WorkOutcome.completes v))) =
      Except.ok v ∧
    blocking.join (blocking.runWork blocking.spawnInit (WorkOutcome.completes v)) =
      Except.ok v :=
  ⟨rfl, rfl, rfl⟩

/-- C3: when `abort()` is the first event on a fresh cancellable handle —
i.e. it happens strictly before the wrapped work is first polled — then
`is_finished()` is already true immediately after the `abort()`, and whatever
happens afterwards (including the work later observing the signal, or further
aborts), `join()` returns `Err(Aborted)`; no natural completion is waited
for. -/
theorem claim_c3 {T : Type} (evs : List (task.Ev T)) :
    task.is_finished (task.run ([task.Ev.abortCall] : List (task.Ev T))) = true ∧
    task.join (task.run (task.Ev.abortCall :: evs)) = Except.error JoinError.Aborted ∧
    task.is_finished (task.run (task.Ev.abortCall :: evs)) = true := by
  have hrun : task.run (task.Ev.abortCall :: evs) =
      task.runFrom (task.abort task.spawnInit) evs := rfl
  have hP := task.runFrom_absorbing evs (task.abort task.spawnInit) rfl rfl rfl rfl
  refine ⟨rfl, ?_, ?_⟩
  · rw [hrun]
    simp [task.join, Oneshot.recv, hP.2.2.2, hP.2.1]
  · rw [hrun]
    simp [task.is_finished, Oneshot.isTerminated, hP.2.2.1]

/-- C4: once the wrapped work has already sent its value `v` into the result
channel, any number of later `abort()` calls (indeed any later events at all)
leave a subsequent `join()` returning `Ok(v)`. -/
theorem claim_c4 {T : Type} (v : T) (evs : List (task.Ev T)) :
    task.join (task.run (task.Ev.workRun (WorkOutcome.completes v) :: evs)) =
      Except.ok v := by
  have hrun : task.run (task.Ev.workRun (WorkOutcome.completes v) :: evs) =
      task.runFrom (task.step task.spawnInit (task.Ev.workRun (WorkOutcome.completes v))) evs :=
    rfl
  have hd := task.runFrom_delivered evs
    (task.step task.spawnInit (task.Ev.workRun (WorkOutcome.completes v))) v rfl rfl
  rw [hrun]
  simp [task.join, Oneshot.recv, hd.2]

/-- C5: the blocking join handle (whose state carries no abort control and
whose Lean namespace, like the Rust module, has no `abort` operation) never
reports `Aborted`: `join()` returns `Ok(v)` exactly when a value `v` was
sent, and `Err(Panic)` whenever no value was sent, for any reason. -/
theorem claim_c5 {T : Type} (s : blocking.JoinHandleState T) :
    blocking.join s ≠ Except.error JoinError.Aborted ∧
    (∀ v : T, s.rx.data = some v → blocking.join s = Except.ok v) ∧
    (s.rx.data = none → blocking.join s = Except.error JoinError.Panic) := by
  refine ⟨?_, ?_, ?_⟩
  · cases h : s.rx.data <;> simp [blocking.join, Oneshot.recv, h]
  · intro v hv
    simp [blocking.join, Oneshot.recv, hv]
  · intro h
    simp [blocking.join, Oneshot.recv, h]

/-- C5 witness: a blocking handle whose channel delivered `3` joins to
`Ok 3`. -/
theorem claim_c5_witness :
    blocking.join (blocking.JoinHandleState.mk (⟨true, some 3⟩ : Oneshot Nat)) =
      Except.ok 3 :=
  (claim_c5 (blocking.JoinHandleState.mk (⟨true, some 3⟩ : Oneshot Nat))).2.1 3 rfl

/-- C6: `is_finished()` is monotonic for both handle kinds: once it returns
true, it returns true after every further sequence of events in the handle's
lifetime. -/
theorem claim_c6 {T : Type} (s : JoinHandleState T) (evs : List (task.Ev T))
    (bs : blocking.JoinHandleState T) (os : List (WorkOutcome T))
    (h1 : task.is_finished s = true) (h2 : blocking.is_finished bs = true) :
    task.is_finished (task.runFrom s evs) = true ∧
    blocking.is_finished (blocking.runFrom bs os) = true :=
  ⟨task.runFrom_complete evs s h1, blocking.runFrom_complete_mono os bs h2⟩

/-- C6 witness: concrete finished handles of both kinds stay finished after
further events. -/
theorem claim_c6_witness :
    task.is_finished (task.runFrom (task.abort task.spawnInit)
      [task.Ev.workRun (WorkOutcome.completes (1 : Nat))]) = true ∧
    blocking.is_finished (blocking.runFrom
      (blocking.runWork blocking.spawnInit (WorkOutcome.completes (2 : Nat)))
      [WorkOutcome.panics]) = true :=
  claim_c6 (task.abort task.spawnInit) [task.Ev.workRun (WorkOutcome.completes 1)]
    (blocking.runWork blocking.spawnInit (WorkOutcome.completes 2)) [WorkOutcome.panics]
    rfl rfl

/-- C7: `abort()` is idempotent: a second call leaves the whole observable
handle state — the shared abort signal, the local `aborted` flag, the closed
channel — exactly as after the first call, hence also the results of
`join()` and `is_finished()`. -/
theorem claim_c7 {T : Type} (s : JoinHandleState T) :
    task.abort (task.abort s) = task.abort s ∧
    task.join (task.abort (task.abort s)) = task.join (task.abort s) ∧
    task.is_finished (task.abort (task.abort s)) = task.is_finished (task.abort s) :=
  ⟨rfl, rfl, rfl⟩

/-- C8: when the consumer side of the result channel has disconnected (the
channel is complete with the handle side closed or dropped) before the work
sends, the send is rejected without delivering — a failure the wrapped work
discards with `.ok()`, so it is a no-op, not an error — and running the
wrapped work in any such state leaves the channel's slot untouched;
fire-and-forget is valid. -/
theorem claim_c8 {T : Type} (ch : Oneshot T) (v : T) (h : ch.complete = true) :
    (ch.send v).2 = false ∧ (ch.send v).1.data = ch.data ∧
    (∀ (s : JoinHandleState T) (o : WorkOutcome T), s.rx = ch →
      (task.runWrapped s o).rx.data = ch.data) := by
  refine ⟨?_, ?_, ?_⟩
  · simp [Oneshot.send, h]
  · simp [Oneshot.send, h]
  · intro s o hs
    simp only [task.runWrapped]
    split
    · simp [Oneshot.dropSender, hs]
    · cases o with
      | completes w => simp [Oneshot.send, hs, h]
      | panics => simp [Oneshot.dropSender, hs]

/-- C8 witness: sending `5` into a disconnected channel reports failure and
delivers nothing. -/
theorem claim_c8_witness :
    ((⟨true, none⟩ : Oneshot Nat).send 5).2 = false ∧
    ((⟨true, none⟩ : Oneshot Nat).send 5).1.data = none :=
  ⟨(claim_c8 (⟨true, none⟩ : Oneshot Nat) 5 rfl).1,
    (claim_c8 (⟨true, none⟩ : Oneshot Nat) 5 rfl).2.1⟩

/-- C9 counterexample: the claim "for every duration d, sleep(d) resolves
only after at least d has elapsed" fails at d = 500 microseconds: `sleep`
truncates the duration to whole milliseconds (`dur.as_millis() as i32`), so
the timer is set for 0 ms and the guaranteed elapsed time is 0 ns, less than
the 500000 ns of d. -/
theorem claim_c9_counterexample :
    ¬ (Duration.toNanos ⟨0, 500000⟩ ≤ sleepGuaranteedNanos ⟨0, 500000⟩) := by
  decide

/-- C9 (amended): for every duration d whose whole-millisecond count fits in
a (positive) i32, sleep(d) resolves only after at least that many
milliseconds — `as_millis(d)` ms — have elapsed; the sub-millisecond
remainder of d is truncated away, so the bound is at least d itself only
when d is a whole number of milliseconds. -/
theorem claim_c9 (d : Duration) (h : d.as_millis < 2 ^ 31) :
    d.as_millis * 1000000 ≤ sleepGuaranteedNanos d := by
  unfold sleepGuaranteedNanos castU128ToI32
  have h32 : d.as_millis % 2 ^ 32 = d.as_millis :=
    Nat.mod_eq_of_lt (lt_trans h (by norm_num))
  simp only [h32]
  rw [if_pos h]
  have hmax : max ((d.as_millis : Int)) 0 = (d.as_millis : Int) :=
    max_eq_left (Int.ofNat_nonneg _)
  rw [hmax, Int.toNat_natCast]

/-- C9 witness: one whole second is guaranteed in full. -/
theorem claim_c9_witness :
    Duration.as_millis ⟨1, 0⟩ < 2 ^ 31 ∧
    Duration.as_millis ⟨1, 0⟩ * 1000000 ≤ sleepGuaranteedNanos ⟨1, 0⟩ :=
  ⟨by decide, claim_c9 ⟨1, 0⟩ (by decide)⟩

/-- C10: the thread-flavoured `spawn`/`spawn_local` build their handle exactly
like the task-flavoured ones — same fresh channel, same initial flags, same
send-only-on-Ok wrapped future — and the thread handle's `join`, `abort` and
`is_finished` agree with the task handle's on every state.  (The additional
`Send` bounds of `thread::spawn` are a type-level restriction on which work
may be spawned, not a behavioural difference.) -/
theorem claim_c10 {T : Type} :
    (thread.spawnInit : JoinHandleState T) = task.spawnInit ∧
    (thread.spawnLocalInit : JoinHandleState T) = task.spawnLocalInit ∧
    (∀ s : JoinHandleState T, thread.join s = task.join s) ∧
    (∀ s : JoinHandleState T, thread.abort s = task.abort s) ∧
    (∀ s : JoinHandleState T, thread.is_finished s = task.is_finished s) ∧
    (∀ (s : JoinHandleState T) (o : WorkOutcome T),
      thread.runWrapped s o = task.runWrapped s o) :=
  ⟨rfl, rfl, fun _ => rfl, fun _ => rfl, fun _ => rfl, fun _ _ => rfl⟩

end Wasmt
